import Mathlib

/-!
Shallow embedding of the canary-release control core of the be-lambda
repository, together with theorems settling the frozen claims about it.

Each namespace embeds one source file:

* `Redrive`          — src/prediction/re-drive.py
* `EmergencyRollback` — src/canary/emergency_rollback.py
* `TrafficAdjuster`  — src/canary/traffic_adjuster.py
* `Distributor`      — src/common/sqs_message_distributor_with_canary.py
* `CalcPlan`         — src/canary/calculate_deployment_plan.py
* `ManagePlan`       — src/canary/manage_deployment_plan.py
* `NextPercentage`   — src/canary/calculate_next_percentage.py
* `CheckStatus`      — src/canary/check_status.py

External AWS services (SQS queues, the ALB listener, the Auto Scaling
group, Step Functions) are modelled as explicit values threaded through
the handlers; a boto3 call that can raise is modelled as a function into
`Except`, where the error value carries the state of the external world
at the moment the exception escaped (Python exceptions abort the handler,
leaving the world as it was).
-/

namespace Redrive

/-- Message sitting in an SQS queue. The field `totalRetryCount` models the
optional message-attribute metadata of that name: `none` when the attribute
is absent. -/
structure SqsMessage where
  messageId : Nat
  bodyText : String
  totalRetryCount : Option Nat
deriving DecidableEq, Repr

/-- Entry built by move_messages for send_message_batch: the source code
forwards only Id and MessageBody, so message attributes are not carried
over to the re-published copy. -/
def forwardEntry (m : SqsMessage) : SqsMessage :=
  { messageId := m.messageId, bodyText := m.bodyText, totalRetryCount := none }

/-- move_messages from src/prediction/re-drive.py: repeatedly receives up
to 10 messages from the source queue, sends the batch to the destination
queue, and deletes the batch from the source queue, until the source queue
is empty. Returns the final (source, destination) queue contents. No
retry-count metadata is consulted anywhere. -/
def move_messages (source dest : List SqsMessage) :
    List SqsMessage × List SqsMessage :=
  match source with
  | [] => ([], dest)
  | m :: rest =>
      move_messages (rest.drop 9)
        (dest ++ ((m :: rest).take 10).map forwardEntry)
termination_by source.length
decreasing_by
  simp only [List.length_drop, List.length_cons]
  omega

end Redrive

namespace EmergencyRollback

/-- External state touched by src/canary/emergency_rollback.py: the ALB
listener weight pair (live, canary), the desired capacity of the canary
Auto Scaling group, and the running Step Functions executions. -/
structure RollbackState where
  listenerWeights : Int × Int
  canaryDesiredCapacity : Int
  runningExecutions : List String
deriving DecidableEq, Repr

/-- Failure injection for the three boto3 calls of the handler; a `true`
flag makes the corresponding call raise. -/
structure StepFailures where
  modifyListenerFails : Bool
  updateAsgFails : Bool
  stopExecutionFails : Bool
deriving DecidableEq, Repr

/-- Step 1 of the handler: elbv2.modify_listener forcing the weights to
(live = 100, canary = 0). On failure the exception escapes with the world
unchanged. -/
def modify_listener (fails : Bool) (s : RollbackState) :
    Except (String × RollbackState) RollbackState :=
  if fails then .error ("modify_listener failed", s)
  else .ok { s with listenerWeights := (100, 0) }

/-- Step 2 of the handler: autoscaling.update_auto_scaling_group setting
the canary desired capacity to 0. -/
def update_auto_scaling_group (fails : Bool) (s : RollbackState) :
    Except (String × RollbackState) RollbackState :=
  if fails then .error ("update_auto_scaling_group failed", s)
  else .ok { s with canaryDesiredCapacity := 0 }

/-- Step 3 of the handler: sfn.list_executions with the RUNNING filter,
then, when the list is non-empty, sfn.stop_execution on its first entry. -/
def stop_running_execution (fails : Bool) (s : RollbackState) :
    Except (String × RollbackState) RollbackState :=
  match s.runningExecutions with
  | [] => .ok s
  | _ :: rest =>
      if fails then .error ("stop_execution failed", s)
      else .ok { s with runningExecutions := rest }

/-- lambda_handler of src/canary/emergency_rollback.py. The three steps
are plain sequential statements with no try/except around any of them, so
an exception raised by one step propagates and the following steps are
never executed; the monadic bind on `Except` models exactly that. -/
def lambda_handler (f : StepFailures) (s : RollbackState) :
    Except (String × RollbackState) RollbackState := do
  let s1 ← modify_listener f.modifyListenerFails s
  let s2 ← update_auto_scaling_group f.updateAsgFails s1
  stop_running_execution f.stopExecutionFails s2

end EmergencyRollback

namespace TrafficAdjuster

/-- Default-action target list of the ALB listener, as written by
elbv2.modify_listener: pairs of a target-group ARN and its weight. -/
structure AlbTargets where
  targets : List (String × Int)
deriving DecidableEq, Repr

def PROD_TG_ARN : String := "prod-tg"

def CANARY_TG_ARN : String := "canary-tg"

/-- lambda_handler of src/canary/traffic_adjuster.py. The event field
canary_percentage defaults to 0 when absent; a value outside [0, 100]
raises ValueError before any ALB call, so the error result carries the
listener state unchanged. A valid value rewrites the default action to
the two weighted targets (prod, 100 - p) and (canary, p) and returns p. -/
def lambda_handler (canary_percentage_field : Option Int) (alb : AlbTargets) :
    Except (String × AlbTargets) (AlbTargets × Int) :=
  let canary_percentage := canary_percentage_field.getD 0
  if ¬ (0 ≤ canary_percentage ∧ canary_percentage ≤ 100) then
    .error ("canary_percentage must be between 0 and 100.", alb)
  else
    let prod_percentage := 100 - canary_percentage
    .ok ({ targets := [(PROD_TG_ARN, prod_percentage),
                       (CANARY_TG_ARN, canary_percentage)] },
         canary_percentage)

end TrafficAdjuster

namespace Distributor

/-- One target group of the ALB default forward action, as read by
describe_listeners: its ARN and its Weight field, which may be absent
(the source uses tg.get with default 0). -/
structure TargetGroup where
  arn : String
  weight : Option Nat
deriving DecidableEq, Repr

/-- ForwardConfig of the default action: the target-group list. The
listener read is modelled as an `Option ForwardConfig`: `none` covers both
a missing ForwardConfig key and an exception of the describe call, since
the source resolves both to the default (False, 100, 0). -/
structure ForwardConfig where
  targetGroups : List TargetGroup
deriving DecidableEq, Repr

def LIVE_TARGET_GROUP_ARN : String := "live-tg"

def CANARY_TARGET_GROUP_ARN : String := "canary-tg"

/-- One outbound message: an id and a body. -/
structure Msg where
  msgId : String
  body : String
deriving DecidableEq, Repr

/-- get_deployment_status_and_weights of
src/common/sqs_message_distributor_with_canary.py: returns
(is_canary_active, live_weight, canary_weight). Canary is active when the
target list has more than one entry and contains the canary ARN; the two
weights are then picked out of the list by ARN (a later duplicate entry
overwrites an earlier one, as sequential assignment in the source loop
does), defaulting to 0. -/
def get_deployment_status_and_weights (cfg : Option ForwardConfig) :
    Bool × Nat × Nat :=
  match cfg with
  | none => (false, 100, 0)
  | some fc =>
      let target_groups := fc.targetGroups
      let is_canary_active :=
        decide (1 < target_groups.length) &&
          target_groups.any (fun tg => tg.arn == CANARY_TARGET_GROUP_ARN)
      if !is_canary_active then (false, 100, 0)
      else
        let w := target_groups.foldl
          (fun (acc : Nat × Nat) tg =>
            if tg.arn == LIVE_TARGET_GROUP_ARN then (tg.weight.getD 0, acc.2)
            else if tg.arn == CANARY_TARGET_GROUP_ARN then
              (acc.1, tg.weight.getD 0)
            else acc)
          (0, 0)
        (true, w.1, w.2)

/-- Rounding of the Python builtin round on a float: ties go to the even
integer (bankers rounding). The float expression
total_messages * (canary_weight / total_weight) is modelled in exact
rational arithmetic. -/
def pyRound (q : ℚ) : ℤ :=
  if q - ⌊q⌋ < 1 / 2 then ⌊q⌋
  else if 1 / 2 < q - ⌊q⌋ then ⌊q⌋ + 1
  else if ⌊q⌋ % 2 = 0 then ⌊q⌋ else ⌊q⌋ + 1

/-- Result of one send_prediction_messages call: the value of the list the
caller passed in after the call returns (random.shuffle mutates it in
place), and the two partitions delivered to the live and canary queues. -/
structure SendResult where
  callerList : List Msg
  liveSent : List Msg
  canarySent : List Msg
deriving DecidableEq, Repr

/-- send_prediction_messages of
src/common/sqs_message_distributor_with_canary.py. The outcome of
random.shuffle is supplied as the argument `shuffled`; theorems assume it
is a permutation of `messages`. An empty input returns immediately; an
inactive canary or a zero total weight sends everything to the live queue
untouched; otherwise the caller list is shuffled in place and the first
num_canary = round(total * canary_weight / total_weight) messages of the
shuffled list go to the canary queue, the rest to the live queue. -/
def send_prediction_messages (cfg : Option ForwardConfig)
    (messages shuffled : List Msg) : SendResult :=
  if messages = [] then
    { callerList := messages, liveSent := [], canarySent := [] }
  else
    let st := get_deployment_status_and_weights cfg
    let is_canary_active := st.1
    let live_weight := st.2.1
    let canary_weight := st.2.2
    if !is_canary_active then
      { callerList := messages, liveSent := messages, canarySent := [] }
    else
      let total_messages := messages.length
      let total_weight := live_weight + canary_weight
      if total_weight = 0 then
        { callerList := messages, liveSent := messages, canarySent := [] }
      else
        let num_canary :=
          (pyRound ((total_messages : ℚ) *
            ((canary_weight : ℚ) / (total_weight : ℚ)))).toNat
        { callerList := shuffled,
          liveSent := shuffled.drop num_canary,
          canarySent := shuffled.take num_canary }

end Distributor

namespace CalcPlan

def DEFAULT_DURATION_HOURS : Int := 9

/-- Ceiling division computed by math.ceil(100 / d) in the source for a
positive integer d. For every d with 1 ≤ d ≤ 100 the double-precision
quotient 100 / d either is exact or sits strictly between the integers
around the true quotient (the true quotient is at least 1 / 100 away from
the next integer above, far beyond one unit in the last place), so the
float ceiling equals the exact rational ceiling, embedded here with
integer arithmetic. -/
def ceil100div (d : Int) : Int := (100 + d - 1) / d

/-- Output record of src/canary/calculate_deployment_plan.py. -/
structure CalcOutput where
  hourly_increment : Int
  canary_percentage : Int
  total_duration_hours : Int
  current_hour : Int
  deploymentId : Option String
deriving DecidableEq, Repr

/-- lambda_handler of src/canary/calculate_deployment_plan.py: the event
field total_duration_hours defaults to 9; a non-positive duration raises
ValueError; otherwise the handler returns the hourly increment
ceil(100 / duration) together with canary_percentage 0, current_hour 0 and
the echoed deploymentId. -/
def lambda_handler (total_duration_field : Option Int)
    (deploymentId : Option String) : Except String CalcOutput :=
  let total_duration := total_duration_field.getD DEFAULT_DURATION_HOURS
  if total_duration ≤ 0 then
    .error "Total duration must be a positive number of hours."
  else
    .ok { hourly_increment := ceil100div total_duration,
          canary_percentage := 0,
          total_duration_hours := total_duration,
          current_hour := 0,
          deploymentId := deploymentId }

end CalcPlan

namespace ManagePlan

def DEFAULT_DURATION : Int := 9

/-- Output record of src/canary/manage_deployment_plan.py. -/
structure ManageOutput where
  hourly_increment : Int
  total_duration : Int
  current_percentage : Int
  current_hour : Int
  deploymentId : Option String
  imageTag : Option String
deriving DecidableEq, Repr

/-- lambda_handler of src/canary/manage_deployment_plan.py: the duration
defaults to 9; the increment is ceil(100 / duration) when the duration is
positive and 100 otherwise; the handler never raises — it always returns a
plan record with progress current_percentage 0 and current_hour 0. -/
def lambda_handler (total_duration_field : Option Int)
    (deploymentId imageTag : Option String) : ManageOutput :=
  let duration := total_duration_field.getD DEFAULT_DURATION
  let increment := if duration > 0 then CalcPlan.ceil100div duration else 100
  { hourly_increment := increment,
    total_duration := duration,
    current_percentage := 0,
    current_hour := 0,
    deploymentId := deploymentId,
    imageTag := imageTag }

end ManagePlan

namespace NextPercentage

/-- lambda_handler of src/canary/calculate_next_percentage.py: both event
fields default to 0; the handler adds them, caps the sum at 100, and
returns the result. It contains no validation and no raise statement —
addition and comparison cannot fail — so it is total. -/
def lambda_handler (current_percentage_field increment_field : Option Int) :
    Int :=
  let current_percentage := current_percentage_field.getD 0
  let increment := increment_field.getD 0
  let next_percentage := current_percentage + increment
  if next_percentage > 100 then 100 else next_percentage

end NextPercentage

namespace CheckStatus

/-- Health state of one target registered in the canary target group. -/
structure TargetHealth where
  state : String
deriving DecidableEq, Repr

/-- External inputs of src/canary/check_status.py: the target healths of
the canary target group and the instance-refresh records of the
production Auto Scaling group, most recent first (statuses such as
Successful, Failed, Cancelling, Cancelled, InProgress, Pending). -/
structure ProviderState where
  canaryTargets : List TargetHealth
  instanceRefreshes : List String
deriving DecidableEq, Repr

/-- lambda_handler of src/canary/check_status.py. For CANARY_HEALTH it
returns SUCCEEDED when some registered target is healthy, else
IN_PROGRESS. For INSTANCE_REFRESH it returns IN_PROGRESS when no refresh
record exists, SUCCEEDED when the latest status is Successful, raises
when the latest status is Failed, Cancelling or Cancelled, and returns
IN_PROGRESS for every other status. Any other check_type raises
ValueError. -/
def lambda_handler (check_type : Option String) (p : ProviderState) :
    Except String String :=
  if check_type == some "CANARY_HEALTH" then
    if p.canaryTargets.any (fun t => t.state == "healthy") then
      .ok "SUCCEEDED"
    else
      .ok "IN_PROGRESS"
  else if check_type == some "INSTANCE_REFRESH" then
    match p.instanceRefreshes with
    | [] => .ok "IN_PROGRESS"
    | status :: _ =>
        if status = "Successful" then .ok "SUCCEEDED"
        else if status = "Failed" ∨ status = "Cancelling" ∨
            status = "Cancelled" then
          .error ("Instance refresh failed with status: " ++ status)
        else .ok "IN_PROGRESS"
  else
    .error "Invalid check_type specified"

end CheckStatus

section Helpers

/-- Every batch iteration of move_messages appends the whole received
batch to the destination queue, so the destination grows by exactly the
size of the source queue. -/
theorem Redrive.move_messages_length :
    ∀ (n : Nat) (source dest : List Redrive.SqsMessage),
      source.length ≤ n →
      ((Redrive.move_messages source dest).2).length =
        dest.length + source.length := by
  intro n
  induction n with
  | zero =>
      intro source dest h
      have hs : source = [] := List.length_eq_zero.mp (Nat.le_zero.mp h)
      subst hs
      simp [Redrive.move_messages]
  | succ n ih =>
      intro source dest h
      match source with
      | [] => simp [Redrive.move_messages]
      | m :: rest =>
          simp only [List.length_cons] at h
          rw [Redrive.move_messages]
          rw [ih (rest.drop 9) _ (by simp [List.length_drop]; omega)]
          simp [List.length_append, List.length_map, List.length_take,
            List.length_drop, List.length_cons]
          omega

/-- pyRound of a rational bounded by the natural number n stays at most n
after truncation to a natural number. -/
theorem Distributor.pyRound_le (q : ℚ) (n : ℕ) (hq : q ≤ (n : ℚ)) :
    (Distributor.pyRound q).toNat ≤ n := by
  rw [Int.toNat_le]
  have hfloor : ⌊q⌋ ≤ (n : ℤ) := by
    have h1 : ⌊q⌋ ≤ ⌊(n : ℚ)⌋ := Int.floor_le_floor hq
    simpa using h1
  have hup : ¬ (q - ⌊q⌋ < 1 / 2) → ⌊q⌋ + 1 ≤ (n : ℤ) := by
    intro h1
    push_neg at h1
    have h2 : (⌊q⌋ : ℚ) + 1 / 2 ≤ q := by linarith
    have h3 : (⌊q⌋ : ℚ) < (n : ℚ) := by linarith
    have h4 : ⌊q⌋ < (n : ℤ) := by exact_mod_cast h3
    omega
  unfold Distributor.pyRound
  split_ifs with h1 h2 h3
  · exact hfloor
  · exact hup h1
  · exact hfloor
  · exact hup h1

/-- Exact characterisation of the integer ceiling division used by the
deployment planners: for positive d, (100 + d - 1) / d is the ceiling of
the rational 100 / d. -/
theorem CalcPlan.ceil100div_eq (d : Int) (hd : 0 < d) :
    CalcPlan.ceil100div d = ⌈(100 : ℚ) / (d : ℚ)⌉ := by
  have hdq : (0 : ℚ) < (d : ℚ) := by exact_mod_cast hd
  have hq := Int.ediv_add_emod (100 + d - 1) d
  have hr0 := Int.emod_nonneg (100 + d - 1) (by omega : d ≠ 0)
  have hrd := Int.emod_lt_of_pos (100 + d - 1) hd
  rw [eq_comm, Int.ceil_eq_iff]
  unfold CalcPlan.ceil100div
  constructor
  · rw [lt_div_iff₀ hdq]
    have key : ((100 + d - 1) / d - 1) * d < 100 := by nlinarith
    calc ((((100 + d - 1) / d : ℤ) : ℚ) - 1) * (d : ℚ)
        = ((((100 + d - 1) / d - 1) * d : ℤ) : ℚ) := by push_cast; ring
      _ < 100 := by exact_mod_cast key
  · rw [div_le_iff₀ hdq]
    have key : 100 ≤ ((100 + d - 1) / d) * d := by nlinarith
    calc (100 : ℚ) ≤ ((((100 + d - 1) / d) * d : ℤ) : ℚ) := by exact_mod_cast key
      _ = (((100 + d - 1) / d : ℤ) : ℚ) * (d : ℚ) := by push_cast; ring

end Helpers

/-- C1: the redrive code caps no retries. Every message of the dead-letter
queue is re-published to the main queue unconditionally — move_messages
reads no totalRetryCount metadata, increments nothing and discards
nothing — and in particular a message whose totalRetryCount metadata
already equals maxRetries = 5 is re-published (with its metadata dropped)
instead of being permanently deleted as the claim requires. -/
theorem Redrive.move_messages_unconditional :
    (∀ source dest : List Redrive.SqsMessage,
       ((Redrive.move_messages source dest).2).length =
         dest.length + source.length) ∧
    Redrive.move_messages
        [{ messageId := 1, bodyText := "payload", totalRetryCount := some 5 }]
        [] =
      ([], [{ messageId := 1, bodyText := "payload",
              totalRetryCount := none }]) := by
  constructor
  · intro source dest
    exact Redrive.move_messages_length source.length source dest le_rfl
  · simp [Redrive.move_messages, Redrive.forwardEntry]

/-- C2: the three rollback steps are not isolated from one another. When
step 1 (modify_listener) raises, the exception propagates out of
lambda_handler and steps 2 and 3 are never attempted: the error result
carries the external world unchanged — the canary desired capacity is
still 1 and the rollout execution is still running — whereas a
failure-free invocation of the same handler sets the weights to (100, 0),
the capacity to 0 and stops the running execution. -/
theorem EmergencyRollback.step_failure_aborts_rest :
    EmergencyRollback.lambda_handler
        { modifyListenerFails := true, updateAsgFails := false,
          stopExecutionFails := false }
        { listenerWeights := (50, 50), canaryDesiredCapacity := 1,
          runningExecutions := ["exec-1"] } =
      .error ("modify_listener failed",
        { listenerWeights := (50, 50), canaryDesiredCapacity := 1,
          runningExecutions := ["exec-1"] }) ∧
    EmergencyRollback.lambda_handler
        { modifyListenerFails := false, updateAsgFails := false,
          stopExecutionFails := false }
        { listenerWeights := (50, 50), canaryDesiredCapacity := 1,
          runningExecutions := ["exec-1"] } =
      .ok { listenerWeights := (100, 0), canaryDesiredCapacity := 0,
            runningExecutions := [] } :=
  ⟨rfl, rfl⟩

/-- C3: for every canaryPercent p in [0, 100] the traffic adjuster writes
exactly the two weighted targets (prod, 100 - p) and (canary, p), whose
weights sum to 100, and returns p; for p outside the range it raises
ValueError and the listener is left unchanged. -/
theorem TrafficAdjuster.weights_sum_and_validation (p : Int)
    (alb : TrafficAdjuster.AlbTargets) :
    (0 ≤ p → p ≤ 100 →
      TrafficAdjuster.lambda_handler (some p) alb =
        .ok ({ targets := [(TrafficAdjuster.PROD_TG_ARN, 100 - p),
                           (TrafficAdjuster.CANARY_TG_ARN, p)] }, p) ∧
      (100 - p) + p = 100) ∧
    ((p < 0 ∨ 100 < p) →
      TrafficAdjuster.lambda_handler (some p) alb =
        .error ("canary_percentage must be between 0 and 100.", alb)) := by
  constructor
  · intro h1 h2
    constructor
    · simp [TrafficAdjuster.lambda_handler, h1, h2]
    · ring
  · intro h
    have hno : ¬ (0 ≤ p ∧ p ≤ 100) := by omega
    simp [TrafficAdjuster.lambda_handler, hno]

/-- Witness for C3 at p = 30 (valid: weights 70 and 30 written, 30
returned) and p = 150 (invalid: ValueError, listener untouched). -/
theorem TrafficAdjuster.weights_sum_and_validation_witness :
    TrafficAdjuster.lambda_handler (some 30) { targets := [] } =
      .ok ({ targets := [(TrafficAdjuster.PROD_TG_ARN, 70),
                         (TrafficAdjuster.CANARY_TG_ARN, 30)] }, 30) ∧
    TrafficAdjuster.lambda_handler (some 150) { targets := [] } =
      .error ("canary_percentage must be between 0 and 100.",
        { targets := [] }) := by
  constructor
  · have h := ((TrafficAdjuster.weights_sum_and_validation 30
      { targets := [] }).1 (by norm_num) (by norm_num)).1
    simpa using h
  · exact (TrafficAdjuster.weights_sum_and_validation 150
      { targets := [] }).2 (Or.inr (by norm_num))

/-- Unfolding lemma for the active-canary branch of
send_prediction_messages: with a non-empty batch, an active canary and a
non-zero total weight, the caller list is replaced by the shuffled list
and the partitions are the take/drop slices at the rounded canary count. -/
theorem Distributor.send_split_eq (cfg : Option Distributor.ForwardConfig)
    (messages shuffled : List Distributor.Msg) (lw cw : ℕ)
    (hst : Distributor.get_deployment_status_and_weights cfg = (true, lw, cw))
    (hw : lw + cw ≠ 0) (hne : messages ≠ []) :
    Distributor.send_prediction_messages cfg messages shuffled =
      { callerList := shuffled,
        liveSent := shuffled.drop
          (Distributor.pyRound ((messages.length : ℚ) *
            ((cw : ℚ) / ((lw : ℚ) + (cw : ℚ))))).toNat,
        canarySent := shuffled.take
          (Distributor.pyRound ((messages.length : ℚ) *
            ((cw : ℚ) / ((lw : ℚ) + (cw : ℚ))))).toNat } := by
  unfold Distributor.send_prediction_messages
  rw [hst]
  simp only [hne, if_false, Bool.not_true, Bool.false_eq_true, if_neg hw]
  push_cast
  simp

/-- C4 counterexample: Python round is round-half-to-even, not
round-half-up. With 5 messages and weights live = 50 / canary = 50 the
exact count is 5 * 50 / (50 + 50) = 2.5; the code sends 2 messages to the
canary queue, while the round-half-up reading of the claim demands
round(2.5) = 3. -/
theorem Distributor.half_up_counterexample :
    (Distributor.send_prediction_messages
        (some { targetGroups :=
          [{ arn := Distributor.LIVE_TARGET_GROUP_ARN, weight := some 50 },
           { arn := Distributor.CANARY_TARGET_GROUP_ARN, weight := some 50 }] })
        [{ msgId := "a", body := "1" }, { msgId := "b", body := "2" },
         { msgId := "c", body := "3" }, { msgId := "d", body := "4" },
         { msgId := "e", body := "5" }]
        [{ msgId := "a", body := "1" }, { msgId := "b", body := "2" },
         { msgId := "c", body := "3" }, { msgId := "d", body := "4" },
         { msgId := "e", body := "5" }]).canarySent.length = 2 ∧
    round ((5 : ℚ) * 50 / (50 + 50)) = 3 := by
  constructor
  · rw [Distributor.send_split_eq
      (some { targetGroups :=
        [{ arn := Distributor.LIVE_TARGET_GROUP_ARN, weight := some 50 },
         { arn := Distributor.CANARY_TARGET_GROUP_ARN, weight := some 50 }] })
      _ _ 50 50 rfl (by norm_num) (by simp)]
    simp only [List.length_take, List.length_cons, List.length_nil]
    norm_num [Distributor.pyRound]
    decide
  · norm_num [round_eq]

/-- C4 amended: when the canary is active and the total weight is
positive, the code sends exactly
canaryCount = round(totalMessages * canaryWeight / (liveWeight + canaryWeight))
messages to the canary queue with the rounding of the Python round
builtin — ties to the even integer (bankers rounding), not half up — and
the remaining totalMessages - canaryCount messages to the stable queue. -/
theorem Distributor.canary_count_bankers (cfg : Option Distributor.ForwardConfig)
    (messages shuffled : List Distributor.Msg) (lw cw : ℕ)
    (hperm : shuffled.Perm messages)
    (hst : Distributor.get_deployment_status_and_weights cfg = (true, lw, cw))
    (hw : lw + cw ≠ 0) (hne : messages ≠ []) :
    (Distributor.send_prediction_messages cfg messages shuffled).canarySent.length =
      (Distributor.pyRound ((messages.length : ℚ) * (cw : ℚ) /
        ((lw : ℚ) + (cw : ℚ)))).toNat ∧
    (Distributor.send_prediction_messages cfg messages shuffled).liveSent.length =
      messages.length -
        (Distributor.pyRound ((messages.length : ℚ) * (cw : ℚ) /
          ((lw : ℚ) + (cw : ℚ)))).toNat := by
  have hform : (messages.length : ℚ) * ((cw : ℚ) / ((lw : ℚ) + (cw : ℚ))) =
      (messages.length : ℚ) * (cw : ℚ) / ((lw : ℚ) + (cw : ℚ)) := by
    ring
  rw [Distributor.send_split_eq cfg messages shuffled lw cw hst hw hne, hform]
  have hden : (0 : ℚ) < (lw : ℚ) + (cw : ℚ) := by
    have : 0 < lw + cw := Nat.pos_of_ne_zero hw
    exact_mod_cast this
  have hration : (cw : ℚ) / ((lw : ℚ) + (cw : ℚ)) ≤ 1 := by
    apply div_le_one_of_le₀
    · exact_mod_cast Nat.le_add_left cw lw
    · exact le_of_lt hden
  have hq : (messages.length : ℚ) * ((cw : ℚ) / ((lw : ℚ) + (cw : ℚ))) ≤
      (messages.length : ℚ) := by
    calc (messages.length : ℚ) * ((cw : ℚ) / ((lw : ℚ) + (cw : ℚ)))
        ≤ (messages.length : ℚ) * 1 := by
          apply mul_le_mul_of_nonneg_left hration
          exact_mod_cast Nat.zero_le messages.length
      _ = (messages.length : ℚ) := mul_one _
  have hk := Distributor.pyRound_le _ messages.length hq
  rw [hform] at hk
  have hlen : shuffled.length = messages.length := hperm.length_eq
  constructor
  · simp only [List.length_take, hlen]
    omega
  · simp only [List.length_drop, hlen]

/-- Witness for the amended C4 at the spec example: 10 messages with
weights live = 70 / canary = 30 give 3 canary messages and 7 stable
messages. -/
theorem Distributor.canary_count_bankers_witness :
    (Distributor.send_prediction_messages
        (some { targetGroups :=
          [{ arn := Distributor.LIVE_TARGET_GROUP_ARN, weight := some 70 },
           { arn := Distributor.CANARY_TARGET_GROUP_ARN, weight := some 30 }] })
        [{ msgId := "m0", body := "b" }, { msgId := "m1", body := "b" },
         { msgId := "m2", body := "b" }, { msgId := "m3", body := "b" },
         { msgId := "m4", body := "b" }, { msgId := "m5", body := "b" },
         { msgId := "m6", body := "b" }, { msgId := "m7", body := "b" },
         { msgId := "m8", body := "b" }, { msgId := "m9", body := "b" }]
        [{ msgId := "m0", body := "b" }, { msgId := "m1", body := "b" },
         { msgId := "m2", body := "b" }, { msgId := "m3", body := "b" },
         { msgId := "m4", body := "b" }, { msgId := "m5", body := "b" },
         { msgId := "m6", body := "b" }, { msgId := "m7", body := "b" },
         { msgId := "m8", body := "b" }, { msgId := "m9", body := "b" }]
      ).canarySent.length = 3 ∧
    (Distributor.send_prediction_messages
        (some { targetGroups :=
          [{ arn := Distributor.LIVE_TARGET_GROUP_ARN, weight := some 70 },
           { arn := Distributor.CANARY_TARGET_GROUP_ARN, weight := some 30 }] })
        [{ msgId := "m0", body := "b" }, { msgId := "m1", body := "b" },
         { msgId := "m2", body := "b" }, { msgId := "m3", body := "b" },
         { msgId := "m4", body := "b" }, { msgId := "m5", body := "b" },
         { msgId := "m6", body := "b" }, { msgId := "m7", body := "b" },
         { msgId := "m8", body := "b" }, { msgId := "m9", body := "b" }]
        [{ msgId := "m0", body := "b" }, { msgId := "m1", body := "b" },
         { msgId := "m2", body := "b" }, { msgId := "m3", body := "b" },
         { msgId := "m4", body := "b" }, { msgId := "m5", body := "b" },
         { msgId := "m6", body := "b" }, { msgId := "m7", body := "b" },
         { msgId := "m8", body := "b" }, { msgId := "m9", body := "b" }]
      ).liveSent.length = 7 := by
  have h := Distributor.canary_count_bankers
    (some { targetGroups :=
      [{ arn := Distributor.LIVE_TARGET_GROUP_ARN, weight := some 70 },
       { arn := Distributor.CANARY_TARGET_GROUP_ARN, weight := some 30 }] })
    [{ msgId := "m0", body := "b" }, { msgId := "m1", body := "b" },
     { msgId := "m2", body := "b" }, { msgId := "m3", body := "b" },
     { msgId := "m4", body := "b" }, { msgId := "m5", body := "b" },
     { msgId := "m6", body := "b" }, { msgId := "m7", body := "b" },
     { msgId := "m8", body := "b" }, { msgId := "m9", body := "b" }]
    [{ msgId := "m0", body := "b" }, { msgId := "m1", body := "b" },
     { msgId := "m2", body := "b" }, { msgId := "m3", body := "b" },
     { msgId := "m4", body := "b" }, { msgId := "m5", body := "b" },
     { msgId := "m6", body := "b" }, { msgId := "m7", body := "b" },
     { msgId := "m8", body := "b" }, { msgId := "m9", body := "b" }]
    70 30 (List.Perm.refl _) rfl (by norm_num) (by simp)
  obtain ⟨h1, h2⟩ := h
  have hval : (Distributor.pyRound (((10 : ℕ) : ℚ) * ((30 : ℕ) : ℚ) /
      (((70 : ℕ) : ℚ) + ((30 : ℕ) : ℚ)))).toNat = 3 := by
    norm_num [Distributor.pyRound]
    decide
  constructor
  · rw [h1]
    simpa using hval
  · rw [h2]
    simp only [List.length_cons, List.length_nil]
    norm_num [Distributor.pyRound]
    decide

/-- C5: the stable and canary partitions always cover the input batch —
their lengths add up to the input length — and the batch goes entirely to
the stable queue when the canary is inactive (which covers the missing
canary target) or when the canary weight is 0 (which, weights being
natural numbers, covers liveWeight + canaryWeight = 0 as well). -/
theorem Distributor.partition_total (cfg : Option Distributor.ForwardConfig)
    (messages shuffled : List Distributor.Msg)
    (hperm : shuffled.Perm messages) :
    ((Distributor.send_prediction_messages cfg messages shuffled).liveSent.length +
      (Distributor.send_prediction_messages cfg messages shuffled).canarySent.length =
        messages.length) ∧
    ((Distributor.get_deployment_status_and_weights cfg).1 = false →
      (Distributor.send_prediction_messages cfg messages shuffled).liveSent =
        messages ∧
      (Distributor.send_prediction_messages cfg messages shuffled).canarySent =
        []) ∧
    (∀ act lw cw,
      Distributor.get_deployment_status_and_weights cfg = (act, lw, cw) →
      cw = 0 →
      (Distributor.send_prediction_messages cfg messages shuffled).canarySent =
        [] ∧
      (Distributor.send_prediction_messages cfg messages shuffled).liveSent.Perm
        messages) := by
  by_cases hm : messages = []
  · subst hm
    have hs : shuffled = [] := hperm.eq_nil
    subst hs
    refine ⟨rfl, fun _ => ⟨rfl, rfl⟩, fun act lw cw _ _ => ⟨rfl, List.Perm.refl _⟩⟩
  · rcases h : Distributor.get_deployment_status_and_weights cfg with ⟨act, lw, cw⟩
    cases act with
    | false =>
        have hsend : Distributor.send_prediction_messages cfg messages shuffled =
            { callerList := messages, liveSent := messages, canarySent := [] } := by
          unfold Distributor.send_prediction_messages
          rw [h]
          simp [hm]
        rw [hsend]
        refine ⟨by simp, fun _ => ⟨rfl, rfl⟩, fun act' lw' cw' h' _ => ?_⟩
        exact ⟨rfl, List.Perm.refl _⟩
    | true =>
        by_cases hw : lw + cw = 0
        · have hsend : Distributor.send_prediction_messages cfg messages shuffled =
              { callerList := messages, liveSent := messages, canarySent := [] } := by
            unfold Distributor.send_prediction_messages
            rw [h]
            simp [hm, hw]
          rw [hsend]
          refine ⟨by simp, fun habs => ?_, fun act' lw' cw' h' _ => ?_⟩
          · simp at habs
          · exact ⟨rfl, List.Perm.refl _⟩
        · rw [Distributor.send_split_eq cfg messages shuffled lw cw h hw hm]
          have hlen : shuffled.length = messages.length := hperm.length_eq
          refine ⟨?_, fun habs => ?_, fun act' lw' cw' h' hcw => ?_⟩
          · simp only [List.length_drop, List.length_take, hlen]
            omega
          · simp at habs
          · have hcc : cw = cw' := congrArg (fun t => t.2.2) h'
            have hcw0 : cw = 0 := by omega
            subst hcw0
            have hzero : (Distributor.pyRound ((messages.length : ℚ) *
                (((0 : ℕ) : ℚ) / ((lw : ℚ) + ((0 : ℕ) : ℚ))))).toNat = 0 := by
              norm_num [Distributor.pyRound]
            rw [hzero]
            exact ⟨rfl, by simpa using hperm⟩

/-- Witness for C5: a single-message batch with no listener configuration
resolves to the inactive default (False, 100, 0) and goes entirely to the
stable queue; the partition lengths add up to the batch length. -/
theorem Distributor.partition_total_witness :
    ((Distributor.send_prediction_messages none [{ msgId := "a", body := "1" }]
        [{ msgId := "a", body := "1" }]).liveSent.length +
      (Distributor.send_prediction_messages none [{ msgId := "a", body := "1" }]
        [{ msgId := "a", body := "1" }]).canarySent.length = 1) ∧
    (Distributor.send_prediction_messages none [{ msgId := "a", body := "1" }]
        [{ msgId := "a", body := "1" }]).liveSent =
      [{ msgId := "a", body := "1" }] ∧
    (Distributor.send_prediction_messages none [{ msgId := "a", body := "1" }]
        [{ msgId := "a", body := "1" }]).canarySent = [] := by
  have h := Distributor.partition_total none [{ msgId := "a", body := "1" }]
    [{ msgId := "a", body := "1" }] (List.Perm.refl _)
  exact ⟨h.1, h.2.1 rfl⟩

/-- C10: when canary routing is active the caller list is mutated in
place: after the call it equals the shuffle outcome, which holds exactly
the same messages as the input in a permuted order; and the partition
assignment depends on the shuffle outcome, so it is not deterministic
across runs — two permutations of the same two-message batch at weights
50/50 put different messages into the canary partition. -/
theorem Distributor.shuffle_mutates_caller (cfg : Option Distributor.ForwardConfig)
    (messages shuffled : List Distributor.Msg) (lw cw : ℕ)
    (hperm : shuffled.Perm messages)
    (hst : Distributor.get_deployment_status_and_weights cfg = (true, lw, cw))
    (hw : lw + cw ≠ 0) (hne : messages ≠ []) :
    (Distributor.send_prediction_messages cfg messages shuffled).callerList =
      shuffled ∧
    (Distributor.send_prediction_messages cfg messages shuffled).callerList.Perm
      messages ∧
    (∃ s1 s2 : List Distributor.Msg,
      s1.Perm [{ msgId := "a", body := "1" }, { msgId := "b", body := "2" }] ∧
      s2.Perm [{ msgId := "a", body := "1" }, { msgId := "b", body := "2" }] ∧
      (Distributor.send_prediction_messages
          (some { targetGroups :=
            [{ arn := Distributor.LIVE_TARGET_GROUP_ARN, weight := some 50 },
             { arn := Distributor.CANARY_TARGET_GROUP_ARN, weight := some 50 }] })
          [{ msgId := "a", body := "1" }, { msgId := "b", body := "2" }]
          s1).canarySent ≠
      (Distributor.send_prediction_messages
          (some { targetGroups :=
            [{ arn := Distributor.LIVE_TARGET_GROUP_ARN, weight := some 50 },
             { arn := Distributor.CANARY_TARGET_GROUP_ARN, weight := some 50 }] })
          [{ msgId := "a", body := "1" }, { msgId := "b", body := "2" }]
          s2).canarySent) := by
  rw [Distributor.send_split_eq cfg messages shuffled lw cw hst hw hne]
  refine ⟨rfl, hperm, ?_⟩
  refine ⟨[{ msgId := "a", body := "1" }, { msgId := "b", body := "2" }],
    [{ msgId := "b", body := "2" }, { msgId := "a", body := "1" }],
    List.Perm.refl _, List.Perm.swap _ _ _, ?_⟩
  rw [Distributor.send_split_eq
    (some { targetGroups :=
      [{ arn := Distributor.LIVE_TARGET_GROUP_ARN, weight := some 50 },
       { arn := Distributor.CANARY_TARGET_GROUP_ARN, weight := some 50 }] })
    _ _ 50 50 rfl (by norm_num) (by simp),
    Distributor.send_split_eq
    (some { targetGroups :=
      [{ arn := Distributor.LIVE_TARGET_GROUP_ARN, weight := some 50 },
       { arn := Distributor.CANARY_TARGET_GROUP_ARN, weight := some 50 }] })
    _ _ 50 50 rfl (by norm_num) (by simp)]
  have hone : (Distributor.pyRound (((
      [{ msgId := "a", body := "1" }, { msgId := "b", body := "2" }] :
        List Distributor.Msg).length : ℚ) *
      (((50 : ℕ) : ℚ) / (((50 : ℕ) : ℚ) + ((50 : ℕ) : ℚ))))).toNat = 1 := by
    simp only [List.length_cons, List.length_nil]
    norm_num [Distributor.pyRound]
  rw [hone]
  simp

/-- Witness for C10: a concrete active configuration at weights 50/50 with
a two-message batch and the reversed shuffle outcome — the caller list
after the call is the reversed list, a permutation of the input. -/
theorem Distributor.shuffle_mutates_caller_witness :
    (Distributor.send_prediction_messages
        (some { targetGroups :=
          [{ arn := Distributor.LIVE_TARGET_GROUP_ARN, weight := some 50 },
           { arn := Distributor.CANARY_TARGET_GROUP_ARN, weight := some 50 }] })
        [{ msgId := "a", body := "1" }, { msgId := "b", body := "2" }]
        [{ msgId := "b", body := "2" }, { msgId := "a", body := "1" }]
      ).callerList =
      [{ msgId := "b", body := "2" }, { msgId := "a", body := "1" }] ∧
    (Distributor.send_prediction_messages
        (some { targetGroups :=
          [{ arn := Distributor.LIVE_TARGET_GROUP_ARN, weight := some 50 },
           { arn := Distributor.CANARY_TARGET_GROUP_ARN, weight := some 50 }] })
        [{ msgId := "a", body := "1" }, { msgId := "b", body := "2" }]
        [{ msgId := "b", body := "2" }, { msgId := "a", body := "1" }]
      ).callerList.Perm
      [{ msgId := "a", body := "1" }, { msgId := "b", body := "2" }] := by
  have h := Distributor.shuffle_mutates_caller
    (some { targetGroups :=
      [{ arn := Distributor.LIVE_TARGET_GROUP_ARN, weight := some 50 },
       { arn := Distributor.CANARY_TARGET_GROUP_ARN, weight := some 50 }] })
    [{ msgId := "a", body := "1" }, { msgId := "b", body := "2" }]
    [{ msgId := "b", body := "2" }, { msgId := "a", body := "1" }]
    50 50 (List.Perm.swap _ _ _) rfl (by norm_num) (by simp)
  exact ⟨h.1, h.2.1⟩

/-- C6 counterexample: the manage_deployment_plan handler does not raise
for a non-positive duration — at total_duration_hours = 0 it returns a
plan whose hourly increment is 100, with initialized progress, instead of
failing as the claim requires of the DeploymentPlanner. -/
theorem ManagePlan.zero_duration_returns_plan :
    ManagePlan.lambda_handler (some 0) (some "dep-1") (some "img-1") =
      { hourly_increment := 100, total_duration := 0, current_percentage := 0,
        current_hour := 0, deploymentId := some "dep-1",
        imageTag := some "img-1" } := rfl

/-- C6 amended: for every d in [1, 100] the calculate_deployment_plan
handler returns hourlyIncrement = ceil(100 / d) with canary percentage 0,
current hour 0 and the echoed deploymentId, and raises for d ≤ 0; the
companion manage_deployment_plan handler never raises — for d ≤ 0 it
returns a plan with increment 100 instead. -/
theorem CalcPlan.planner_ceil (d : Int) (dep : Option String) :
    (1 ≤ d → d ≤ 100 →
      CalcPlan.lambda_handler (some d) dep =
        .ok { hourly_increment := ⌈(100 : ℚ) / (d : ℚ)⌉,
              canary_percentage := 0,
              total_duration_hours := d,
              current_hour := 0,
              deploymentId := dep }) ∧
    (d ≤ 0 →
      CalcPlan.lambda_handler (some d) dep =
        .error "Total duration must be a positive number of hours." ∧
      ManagePlan.lambda_handler (some d) dep none =
        { hourly_increment := 100, total_duration := d,
          current_percentage := 0, current_hour := 0, deploymentId := dep,
          imageTag := none }) := by
  constructor
  · intro h1 _
    have hd : 0 < d := by omega
    have hceil := CalcPlan.ceil100div_eq d hd
    simp [CalcPlan.lambda_handler, hceil, show ¬ d ≤ 0 by omega]
  · intro h
    constructor
    · simp [CalcPlan.lambda_handler, h]
    · simp [ManagePlan.lambda_handler, show ¬ d > 0 by omega]

/-- Witness for the amended C6: d = 6 gives hourly increment 17 with
progress initialized to zero, and d = 0 raises from
calculate_deployment_plan. -/
theorem CalcPlan.planner_ceil_witness :
    CalcPlan.lambda_handler (some 6) (some "dep-1") =
      .ok { hourly_increment := 17, canary_percentage := 0,
            total_duration_hours := 6, current_hour := 0,
            deploymentId := some "dep-1" } ∧
    CalcPlan.lambda_handler (some 0) (some "dep-1") =
      .error "Total duration must be a positive number of hours." := by
  constructor
  · have h := (CalcPlan.planner_ceil 6 (some "dep-1")).1 (by norm_num)
      (by norm_num)
    have h17 : (⌈(100 : ℚ) / ((6 : Int) : ℚ)⌉ : ℤ) = 17 := by
      rw [Int.ceil_eq_iff]
      norm_num
    rw [h17] at h
    exact h
  · exact ((CalcPlan.planner_ceil 0 (some "dep-1")).2 (by norm_num)).1

/-- C7: for non-negative inputs the stepper returns
min(current + increment, 100); it is a pure function of its inputs, and
stepping from 100 returns 100 again. -/
theorem NextPercentage.stepper_min_cap (current inc : Int)
    (_h1 : 0 ≤ current) (h2 : 0 ≤ inc) :
    NextPercentage.lambda_handler (some current) (some inc) =
      min (current + inc) 100 ∧
    NextPercentage.lambda_handler (some 100) (some inc) = 100 := by
  unfold NextPercentage.lambda_handler
  constructor
  · simp only [Option.getD_some]
    split_ifs with h
    · omega
    · omega
  · simp only [Option.getD_some]
    split_ifs with h
    · rfl
    · omega

/-- Witness for C7 at the spec examples (95, 17) and (100, 17). -/
theorem NextPercentage.stepper_min_cap_witness :
    NextPercentage.lambda_handler (some 95) (some 17) = 100 ∧
    NextPercentage.lambda_handler (some 100) (some 17) = 100 := by
  have h := NextPercentage.stepper_min_cap 95 17 (by norm_num) (by norm_num)
  refine ⟨?_, h.2⟩
  omega

/-- C8 counterexample: the stepper does not reject negative inputs — at
currentPercent = -5, incrementPercent = 2 it raises nothing and returns
-3. -/
theorem NextPercentage.negative_not_rejected :
    NextPercentage.lambda_handler (some (-5)) (some 2) = -3 := rfl

/-- C8 amended: the stepper performs no input validation and has no error
condition at all: for every pair of integer inputs, negative ones
included, it returns min(current + increment, 100). -/
theorem NextPercentage.stepper_no_validation (current inc : Int) :
    NextPercentage.lambda_handler (some current) (some inc) =
      min (current + inc) 100 := by
  unfold NextPercentage.lambda_handler
  simp only [Option.getD_some]
  split_ifs with h
  · omega
  · omega

/-- C9: the INSTANCE_REFRESH check maps the latest rolling-replacement
status as the claim states: Successful returns SUCCEEDED; Failed,
Cancelling or Cancelled raises; any other status, or no refresh record at
all, returns IN_PROGRESS. -/
theorem CheckStatus.instance_refresh_mapping (p : CheckStatus.ProviderState) :
    (p.instanceRefreshes = [] →
      CheckStatus.lambda_handler (some "INSTANCE_REFRESH") p =
        .ok "IN_PROGRESS") ∧
    (∀ status rest, p.instanceRefreshes = status :: rest →
      (status = "Successful" →
        CheckStatus.lambda_handler (some "INSTANCE_REFRESH") p =
          .ok "SUCCEEDED") ∧
      ((status = "Failed" ∨ status = "Cancelling" ∨ status = "Cancelled") →
        CheckStatus.lambda_handler (some "INSTANCE_REFRESH") p =
          .error ("Instance refresh failed with status: " ++ status)) ∧
      (status ≠ "Successful" → status ≠ "Failed" → status ≠ "Cancelling" →
        status ≠ "Cancelled" →
        CheckStatus.lambda_handler (some "INSTANCE_REFRESH") p =
          .ok "IN_PROGRESS")) := by
  constructor
  · intro h
    simp [CheckStatus.lambda_handler, h]
  · intro status rest h
    refine ⟨fun hs => ?_, fun hs => ?_, fun n1 n2 n3 n4 => ?_⟩
    · simp [CheckStatus.lambda_handler, h, hs]
    · rcases hs with hs | hs | hs <;> subst hs <;>
        simp [CheckStatus.lambda_handler, h]
    · simp [CheckStatus.lambda_handler, h, n1, n2, n3, n4]

/-- Witness for C9: no refresh record gives IN_PROGRESS, Successful gives
SUCCEEDED, Failed raises and InProgress gives IN_PROGRESS. -/
theorem CheckStatus.instance_refresh_mapping_witness :
    CheckStatus.lambda_handler (some "INSTANCE_REFRESH")
      { canaryTargets := [], instanceRefreshes := [] } = .ok "IN_PROGRESS" ∧
    CheckStatus.lambda_handler (some "INSTANCE_REFRESH")
      { canaryTargets := [], instanceRefreshes := ["Successful"] } =
        .ok "SUCCEEDED" ∧
    CheckStatus.lambda_handler (some "INSTANCE_REFRESH")
      { canaryTargets := [], instanceRefreshes := ["Failed"] } =
        .error "Instance refresh failed with status: Failed" ∧
    CheckStatus.lambda_handler (some "INSTANCE_REFRESH")
      { canaryTargets := [], instanceRefreshes := ["InProgress"] } =
        .ok "IN_PROGRESS" := by
  have h1 := (CheckStatus.instance_refresh_mapping
    { canaryTargets := [], instanceRefreshes := [] }).1 rfl
  have h2 := ((CheckStatus.instance_refresh_mapping
    { canaryTargets := [], instanceRefreshes := ["Successful"] }).2
    "Successful" [] rfl).1 rfl
  have h3 := ((CheckStatus.instance_refresh_mapping
    { canaryTargets := [], instanceRefreshes := ["Failed"] }).2
    "Failed" [] rfl).2.1 (Or.inl rfl)
  have h4 := ((CheckStatus.instance_refresh_mapping
    { canaryTargets := [], instanceRefreshes := ["InProgress"] }).2
    "InProgress" [] rfl).2.2 (by decide) (by decide) (by decide) (by decide)
  exact ⟨h1, h2, by simpa using h3, h4⟩
